import Mathlib

/-!
Shallow embedding of the Excel-worksheet autograder: the two Python modules
`autograder.py` (platform entry point) and `grader.py` (local testing entry
point), each with its `grade_excel_worksheet`, `get_cell_value` and
`equal_values`.  Cell values are modelled by `XLValue`, Python floats by
exact rationals, Python exceptions by `Except`/`Source.err`.
-/

/-- A Python cell value as returned by openpyxl: `None`, `int`, `float`,
`str`, `bool`, or some other type (dates etc., modelled opaquely). -/
inductive XLValue where
  | none
  | int (n : Int)
  | float (q : ℚ)
  | str (s : String)
  | bool (b : Bool)
  | date (d : Nat)
  deriving DecidableEq

/-- `isinstance(v, (int, float))` in Python: true for int, float and also
bool, since Python's bool is a subclass of int. -/
def isinstance_number : XLValue → Bool
  | .int _ => true
  | .float _ => true
  | .bool _ => true
  | _ => false

/-- The numeric value of a Python number; `True` is 1 and `False` is 0. -/
def toNum : XLValue → ℚ
  | .int n => (n : ℚ)
  | .float q => q
  | .bool b => if b then 1 else 0
  | _ => 0

/-- Python `==` on cell values: numbers (int/float/bool) compare by numeric
value across types; strings, None and other values compare within their own
type; any other cross-type comparison is unequal. -/
def pyEq (a b : XLValue) : Bool :=
  if isinstance_number a && isinstance_number b then toNum a == toNum b
  else
    match a, b with
    | .none, .none => true
    | .str s, .str t => s == t
    | .date d, .date e => d == e
    | _, _ => false

/-- `v is None or v == ""`: the guard of the blank branch of `equal_values`. -/
def isBlank (v : XLValue) : Bool :=
  decide (v = XLValue.none) || pyEq v (.str "")

/-- A character Python's `str.strip()` removes. -/
def isPySpace (c : Char) : Bool :=
  c = ' ' || c = '\t' || c = '\n' || c = '\r' || c = '\x0b' || c = '\x0c'

/-- Python `str.strip()`: drop whitespace from both ends. -/
def pyStrip (s : String) : String :=
  String.mk (((s.toList.dropWhile isPySpace).reverse.dropWhile isPySpace).reverse)

/-- Python `str.lower()` (ASCII-adequate model). -/
def pyLower (s : String) : String :=
  String.mk (s.toList.map Char.toLower)

/-- Round to the nearest integer, ties to even — the rounding of Python's
string formatting. -/
def roundHalfEven (q : ℚ) : Int :=
  let f := ⌊q⌋
  let r := q - (f : ℚ)
  if r < 1/2 then f
  else if 1/2 < r then f + 1
  else if f % 2 = 0 then f else f + 1

/-- Python `f"{q:.2f}"` for a non-negative value: two decimal places. -/
def format2f (q : ℚ) : String :=
  let c : Nat := (roundHalfEven (q * 100)).toNat
  toString (c / 100) ++ "." ++
    (if c % 100 < 10 then "0" ++ toString (c % 100) else toString (c % 100))

/-- An openpyxl worksheet: row-1-based, column-1-based cell values (absent
cells read as `None`, as openpyxl does) and the `max_column` extent. -/
structure Sheet where
  cells : Nat → Nat → XLValue
  max_column : Nat

instance : Inhabited Sheet := ⟨⟨fun _ _ => .none, 0⟩⟩

/-- An openpyxl workbook: named sheets in order. -/
structure Workbook where
  sheets : List (String × Sheet)

/-- `wb.sheetnames`. -/
def Workbook.sheetnames (wb : Workbook) : List String :=
  wb.sheets.map Prod.fst

/-- `wb[name]`; only called after a membership check in the source. -/
def Workbook.get (wb : Workbook) (name : String) : Sheet :=
  match wb.sheets.find? (fun p => p.1 == name) with
  | some p => p.2
  | Option.none => default

/-- A workbook source handed to `openpyxl.load_workbook`: either it loads,
or loading raises an exception whose `str(e)` is the given message
(corrupt file, missing file, wrong format, ...). -/
inductive Source where
  | ok (wb : Workbook)
  | err (msg : String)

/-- Digits of an A1 address to a number. -/
def natOfDigits (cs : List Char) : Nat :=
  cs.foldl (fun acc c => acc * 10 + (c.toNat - 48)) 0

/-- Column letters of an A1 address to a 1-based column index. -/
def colOfLetters (cs : List Char) : Nat :=
  cs.foldl (fun acc c => acc * 26 + (c.toNat - 64)) 0

/-- Parse an A1-style address like "AD21" into (row, column). -/
def parseA1 (s : String) : Option (Nat × Nat) :=
  let cs := s.toList
  let letters := cs.takeWhile Char.isUpper
  let digits := cs.dropWhile Char.isUpper
  if letters ≠ [] ∧ digits ≠ [] ∧ digits.all Char.isDigit then
    some (natOfDigits digits, colOfLetters letters)
  else Option.none

/-- Read `sheet[addr].value`; any lookup failure yields `None`. -/
def Sheet.byA1 (sheet : Sheet) (addr : String) : XLValue :=
  match parseA1 addr with
  | some rc => sheet.cells rc.1 rc.2
  | Option.none => .none

/-- One entry of the hidden test configuration. -/
structure HiddenTest where
  cell : String
  description : String
  deriving DecidableEq

/-- Division as Python performs it: dividing by zero raises
`ZeroDivisionError("division by zero")`. -/
def pyDiv (a b : ℚ) : Except String ℚ :=
  if b = 0 then .error "division by zero" else .ok (a / b)

namespace autograder

def STUDENT_SHEET_NAME : String := "blank"

def SOLUTION_SHEET_NAME : String := "solution"

def HIDDEN_TEST_CELLS : List HiddenTest :=
  [⟨"AD21", "Financial calculation test"⟩,
   ⟨"M62", "Data processing test"⟩,
   ⟨"AE187", "Formula application test"⟩]

/-- `get_cell_value(sheet, cell_addr)`: the cell's value, or `None` if the
lookup raises. -/
def get_cell_value (sheet : Sheet) (cell_addr : String) : XLValue :=
  sheet.byA1 cell_addr

/-- `equal_values(val1, val2)`: tolerant comparison — blank==blank, numeric
tolerance 0.0001, trimmed case-insensitive text, else Python `==`. -/
def equal_values (val1 val2 : XLValue) : Bool :=
  if isBlank val1 && isBlank val2 then true
  else if isinstance_number val1 && isinstance_number val2 then
    decide (|toNum val1 - toNum val2| < 0.0001)
  else
    match val1, val2 with
    | .str s1, .str s2 => pyLower (pyStrip s1) == pyLower (pyStrip s2)
    | _, _ => pyEq val1 val2

/-- The body of the row-1 loop: `(matches, total_cells)` accumulator. -/
def ynStep (student_sheet solution_sheet : Sheet) (acc : Nat × Nat)
    (col_idx : Nat) : Nat × Nat :=
  let sv := student_sheet.cells 1 col_idx
  let ov := solution_sheet.cells 1 col_idx
  if sv ≠ XLValue.none ∧ ov ≠ XLValue.none then
    if pyEq sv ov then (acc.1 + 1, acc.2 + 1) else (acc.1, acc.2 + 1)
  else acc

/-- PART 1 of `grade_excel_worksheet`: scan row 1 from column 5 to
`max(solution.max_column, student.max_column)` inclusive. -/
def ynCounts (student_sheet solution_sheet : Sheet) : Nat × Nat :=
  let max_col := max solution_sheet.max_column student_sheet.max_column
  (List.range' 5 (max_col + 1 - 5)).foldl (ynStep student_sheet solution_sheet) (0, 0)

/-- `yn_score = matches / total_cells if total_cells > 0 else 0.0`. -/
def yn_score (student_sheet solution_sheet : Sheet) : ℚ :=
  let p := ynCounts student_sheet solution_sheet
  if 0 < p.2 then (p.1 : ℚ) / (p.2 : ℚ) else 0

/-- PART 2: count hidden tests whose two cells compare `equal_values`. -/
def hiddenCountWith (tests : List HiddenTest)
    (student_sheet solution_sheet : Sheet) : Nat :=
  tests.foldl
    (fun acc test =>
      if equal_values (get_cell_value student_sheet test.cell)
          (get_cell_value solution_sheet test.cell) then acc + 1 else acc) 0

/-- The success-path feedback string. -/
def feedbackString (total_score : ℚ) (matched total_cells : Nat) : String :=
  "Your score: " ++ format2f (total_score * 100) ++
    "%\nYou correctly matched " ++ toString matched ++ " out of " ++
    toString total_cells ++ " cells."

/-- The result dictionary of the platform grader: score and feedback. -/
structure GradeResult where
  score : ℚ
  feedback : String
  deriving DecidableEq

/-- The part of `grade_excel_worksheet` after both sheets are in hand; in
the `Except` monad because the unguarded hidden-test division can raise. -/
def gradeBodyWith (tests : List HiddenTest)
    (student_sheet solution_sheet : Sheet) : Except String GradeResult :=
  let p := ynCounts student_sheet solution_sheet
  let hidden_tests_passed := hiddenCountWith tests student_sheet solution_sheet
  let ys := yn_score student_sheet solution_sheet
  match pyDiv (hidden_tests_passed : ℚ) (tests.length : ℚ) with
  | .error e => .error e
  | .ok hidden_score =>
    let total_score := ys * 0.8 + hidden_score * 0.2
    .ok ⟨total_score, feedbackString total_score p.1 p.2⟩

/-- `grade_excel_worksheet`, parameterised by the hidden-test list (the
source reads the module constant `HIDDEN_TEST_CELLS`). -/
def gradeWith (tests : List HiddenTest) (studentSrc solutionSrc : Source) :
    GradeResult :=
  match studentSrc with
  | .err e => ⟨0, "Error grading your submission: " ++ e⟩
  | .ok student_wb =>
    match solutionSrc with
    | .err e => ⟨0, "Error grading your submission: " ++ e⟩
    | .ok solution_wb =>
      if STUDENT_SHEET_NAME ∈ student_wb.sheetnames then
        if SOLUTION_SHEET_NAME ∈ solution_wb.sheetnames then
          match gradeBodyWith tests (student_wb.get STUDENT_SHEET_NAME)
              (solution_wb.get SOLUTION_SHEET_NAME) with
          | .ok r => r
          | .error e => ⟨0, "Error grading your submission: " ++ e⟩
        else ⟨0, "Error: Internal error - Solution worksheet not found."⟩
      else ⟨0, "Error: Worksheet \x27blank\x27 not found in your submission."⟩

/-- `grade_excel_worksheet` of `autograder.py`. -/
def grade_excel_worksheet (studentSrc solutionSrc : Source) : GradeResult :=
  gradeWith HIDDEN_TEST_CELLS studentSrc solutionSrc

end autograder

namespace grader

def STUDENT_SHEET_NAME : String := "blank"

def SOLUTION_SHEET_NAME : String := "solution"

def HIDDEN_TEST_CELLS : List HiddenTest :=
  [⟨"AD21", "Financial calculation test"⟩,
   ⟨"M62", "Data processing test"⟩,
   ⟨"AE187", "Formula application test"⟩]

/-- `get_cell_value(sheet, cell_addr)` of `grader.py`. -/
def get_cell_value (sheet : Sheet) (cell_addr : String) : XLValue :=
  sheet.byA1 cell_addr

/-- `equal_values(val1, val2)` of `grader.py` (textually identical to the
one in `autograder.py`). -/
def equal_values (val1 val2 : XLValue) : Bool :=
  if isBlank val1 && isBlank val2 then true
  else if isinstance_number val1 && isinstance_number val2 then
    decide (|toNum val1 - toNum val2| < 0.0001)
  else
    match val1, val2 with
    | .str s1, .str s2 => pyLower (pyStrip s1) == pyLower (pyStrip s2)
    | _, _ => pyEq val1 val2

/-- The body of the row-1 loop of `grader.py`. -/
def ynStep (student_sheet solution_sheet : Sheet) (acc : Nat × Nat)
    (col_idx : Nat) : Nat × Nat :=
  let sv := student_sheet.cells 1 col_idx
  let ov := solution_sheet.cells 1 col_idx
  if sv ≠ XLValue.none ∧ ov ≠ XLValue.none then
    if pyEq sv ov then (acc.1 + 1, acc.2 + 1) else (acc.1, acc.2 + 1)
  else acc

/-- PART 1 of `grader.grade_excel_worksheet`. -/
def ynCounts (student_sheet solution_sheet : Sheet) : Nat × Nat :=
  let max_col := max solution_sheet.max_column student_sheet.max_column
  (List.range' 5 (max_col + 1 - 5)).foldl (ynStep student_sheet solution_sheet) (0, 0)

/-- `yn_score` of `grader.py`. -/
def yn_score (student_sheet solution_sheet : Sheet) : ℚ :=
  let p := ynCounts student_sheet solution_sheet
  if 0 < p.2 then (p.1 : ℚ) / (p.2 : ℚ) else 0

/-- PART 2 of `grader.grade_excel_worksheet`. -/
def hiddenCountWith (tests : List HiddenTest)
    (student_sheet solution_sheet : Sheet) : Nat :=
  tests.foldl
    (fun acc test =>
      if equal_values (get_cell_value student_sheet test.cell)
          (get_cell_value solution_sheet test.cell) then acc + 1 else acc) 0

/-- The success-path feedback string of `grader.py` (same f-string as the
platform grader's). -/
def feedbackString (total_score : ℚ) (matched total_cells : Nat) : String :=
  "Your score: " ++ format2f (total_score * 100) ++
    "%\nYou correctly matched " ++ toString matched ++ " out of " ++
    toString total_cells ++ " cells."

/-- The extra diagnostic fields the local grader's dictionary carries. -/
structure Diag where
  matched : Nat
  total_cells : Nat
  hidden_passed : Nat
  hidden_total : Nat
  deriving DecidableEq

/-- The result dictionary of `grader.py`: score, feedback, and — on the
success path only — the diagnostic counters. -/
structure GradeResult where
  score : ℚ
  feedback : String
  diag : Option Diag
  deriving DecidableEq

/-- The part of `grader.grade_excel_worksheet` after both sheets are in
hand. -/
def gradeBodyWith (tests : List HiddenTest)
    (student_sheet solution_sheet : Sheet) : Except String GradeResult :=
  let p := ynCounts student_sheet solution_sheet
  let hidden_tests_passed := hiddenCountWith tests student_sheet solution_sheet
  let ys := yn_score student_sheet solution_sheet
  match pyDiv (hidden_tests_passed : ℚ) (tests.length : ℚ) with
  | .error e => .error e
  | .ok hidden_score =>
    let total_score := ys * 0.8 + hidden_score * 0.2
    .ok ⟨total_score, feedbackString total_score p.1 p.2,
      some ⟨p.1, p.2, hidden_tests_passed, tests.length⟩⟩

/-- `grade_excel_worksheet` of `grader.py`, parameterised by the hidden
test list. -/
def gradeWith (tests : List HiddenTest) (studentSrc solutionSrc : Source) :
    GradeResult :=
  match studentSrc with
  | .err e => ⟨0, "Error grading your submission: " ++ e, Option.none⟩
  | .ok student_wb =>
    match solutionSrc with
    | .err e => ⟨0, "Error grading your submission: " ++ e, Option.none⟩
    | .ok solution_wb =>
      if STUDENT_SHEET_NAME ∈ student_wb.sheetnames then
        if SOLUTION_SHEET_NAME ∈ solution_wb.sheetnames then
          match gradeBodyWith tests (student_wb.get STUDENT_SHEET_NAME)
              (solution_wb.get SOLUTION_SHEET_NAME) with
          | .ok r => r
          | .error e => ⟨0, "Error grading your submission: " ++ e, Option.none⟩
        else ⟨0, "Error: Solution worksheet not found.", Option.none⟩
      else ⟨0, "Error: Worksheet \x27blank\x27 not found in your submission.",
        Option.none⟩

/-- `grade_excel_worksheet` of `grader.py`. -/
def grade_excel_worksheet (studentSrc solutionSrc : Source) : GradeResult :=
  gradeWith HIDDEN_TEST_CELLS studentSrc solutionSrc

end grader

/-- `hidden_score = hidden_tests_passed / len(HIDDEN_TEST_CELLS)` on the
success path of `autograder.py` (the length is 3, so the division is
exact-rational and total here). -/
def autograder.hidden_score (student_sheet solution_sheet : Sheet) : ℚ :=
  (autograder.hiddenCountWith autograder.HIDDEN_TEST_CELLS student_sheet solution_sheet : ℚ) /
    (autograder.HIDDEN_TEST_CELLS.length : ℚ)

/-- `hidden_score` on the success path of `grader.py`. -/
def grader.hidden_score (student_sheet solution_sheet : Sheet) : ℚ :=
  (grader.hiddenCountWith grader.HIDDEN_TEST_CELLS student_sheet solution_sheet : ℚ) /
    (grader.HIDDEN_TEST_CELLS.length : ℚ)

/-- Both row-1 cells at a column are non-absent (`is not None`). -/
def bothPresent (student_sheet solution_sheet : Sheet) (c : Nat) : Bool :=
  decide (student_sheet.cells 1 c ≠ XLValue.none) &&
    decide (solution_sheet.cells 1 c ≠ XLValue.none)

/-- Both row-1 cells are non-absent and compare equal under Python `==`. -/
def presentAndMatching (student_sheet solution_sheet : Sheet) (c : Nat) : Bool :=
  bothPresent student_sheet solution_sheet c &&
    pyEq (student_sheet.cells 1 c) (solution_sheet.cells 1 c)

/-- Modelled from the spec's words "exactly equal (same type and value)":
two cell values agree in type and in value exactly when they are
structurally equal. -/
def exact_type_value_eq (a b : XLValue) : Bool :=
  decide (a = b)

/-- The value is a Python `int` or `float` proper (not `bool`): the domain
the numeric-tolerance claim quantifies over. -/
def isIntOrFloat : XLValue → Bool
  | .int _ => true
  | .float _ => true
  | _ => false

/-- The value is a Python `bool`. -/
def isBoolVal : XLValue → Bool
  | .bool _ => true
  | _ => false

/-- The value is a Python `str`. -/
def isStrVal : XLValue → Bool
  | .str _ => true
  | _ => false

/-- Both workbooks load, the student workbook has its required sheet, but
the solution workbook lacks the sheet named "solution" — the one spot where
the two entry points word their feedback differently. -/
def missingSolutionCase : Source → Source → Bool
  | .ok wb1, .ok wb2 =>
    decide ("blank" ∈ wb1.sheetnames) && !(decide ("solution" ∈ wb2.sheetnames))
  | _, _ => false

/-- A sheet whose only content is "Y" in row 1, column 5. -/
def sheetY : Sheet :=
  ⟨fun r c => if r == 1 && c == 5 then .str "Y" else .none, 5⟩

/-- A sheet whose only content is the int 1 in row 1, column 5. -/
def sheetInt1 : Sheet :=
  ⟨fun r c => if r == 1 && c == 5 then .int 1 else .none, 5⟩

/-- A sheet whose only content is the float 1.0 in row 1, column 5. -/
def sheetFloat1 : Sheet :=
  ⟨fun r c => if r == 1 && c == 5 then .float 1 else .none, 5⟩

/-- A student workbook holding the required "blank" sheet. -/
def wbStudentY : Workbook := ⟨[("blank", sheetY)]⟩

/-- A solution workbook holding the required "solution" sheet. -/
def wbSolutionY : Workbook := ⟨[("solution", sheetY)]⟩

/-- A student workbook whose row-1 column-5 cell is the int 1. -/
def wbStudentInt : Workbook := ⟨[("blank", sheetInt1)]⟩

/-- A solution workbook whose row-1 column-5 cell is the float 1.0. -/
def wbSolutionFloat : Workbook := ⟨[("solution", sheetFloat1)]⟩

/-- A workbook with no sheets at all. -/
def wbEmpty : Workbook := ⟨[]⟩

/-- The row-1 loop, started from any accumulator, adds the number of
columns where both cells are present and match, and the number where both
are present. -/
theorem ynCounts_foldl_aux (s o : Sheet) (l : List Nat) (init : Nat × Nat) :
    l.foldl (autograder.ynStep s o) init =
      (init.1 + l.countP (presentAndMatching s o),
       init.2 + l.countP (bothPresent s o)) := by
  induction l generalizing init with
  | nil => simp
  | cons c l ih =>
    rw [List.foldl_cons, ih]
    by_cases hp : s.cells 1 c ≠ XLValue.none ∧ o.cells 1 c ≠ XLValue.none
    · by_cases hq : pyEq (s.cells 1 c) (o.cells 1 c) = true
      · simp [autograder.ynStep, hp, hq, List.countP_cons, presentAndMatching,
          bothPresent, hp.1, hp.2]
        omega
      · simp [autograder.ynStep, hp, hq, List.countP_cons, presentAndMatching,
          bothPresent, hp.1, hp.2]
        omega
    · have hb : bothPresent s o c = false := by
        simp [bothPresent]
        tauto
      simp [autograder.ynStep, hp, List.countP_cons, presentAndMatching, hb]

/-- `ynCounts` as counts over the scanned column range. -/
theorem ynCounts_eq_countP (s o : Sheet) :
    autograder.ynCounts s o =
      ((List.range' 5 (max o.max_column s.max_column + 1 - 5)).countP
         (presentAndMatching s o),
       (List.range' 5 (max o.max_column s.max_column + 1 - 5)).countP
         (bothPresent s o)) := by
  unfold autograder.ynCounts
  rw [ynCounts_foldl_aux]
  simp

/-- `matches` never exceeds `total_cells`. -/
theorem matched_le_total (s o : Sheet) :
    (autograder.ynCounts s o).1 ≤ (autograder.ynCounts s o).2 := by
  rw [ynCounts_eq_countP]
  exact List.countP_mono_left (fun c _ hc =>
    ((Bool.and_eq_true _ _).mp hc).1)

/-- `yn_score` lies in the unit interval. -/
theorem yn_score_unit (s o : Sheet) :
    0 ≤ autograder.yn_score s o ∧ autograder.yn_score s o ≤ 1 := by
  unfold autograder.yn_score
  by_cases h : 0 < (autograder.ynCounts s o).2
  · rw [if_pos h]
    have hmt := matched_le_total s o
    constructor
    · positivity
    · rw [div_le_one (by exact_mod_cast h)]
      exact_mod_cast hmt
  · rw [if_neg h]
    norm_num

/-- Counting with a conditional increment from `n` stays below `n` plus the
list length. -/
theorem foldl_count_le {α : Type} (f : α → Bool) (l : List α) (n : Nat) :
    l.foldl (fun acc x => if f x then acc + 1 else acc) n ≤ n + l.length := by
  induction l generalizing n with
  | nil => simp
  | cons x l ih =>
    rw [List.foldl_cons]
    by_cases h : f x = true
    · have := ih (n + 1)
      simp only [h, if_true, List.length_cons]
      omega
    · have := ih n
      simp only [h, if_false, List.length_cons, Bool.false_eq_true]
      omega

/-- The hidden-test pass count never exceeds the test-list length. -/
theorem hiddenCount_le (tests : List HiddenTest) (s o : Sheet) :
    autograder.hiddenCountWith tests s o ≤ tests.length := by
  unfold autograder.hiddenCountWith
  exact le_trans
    (foldl_count_le
      (fun test => autograder.equal_values (autograder.get_cell_value s test.cell)
        (autograder.get_cell_value o test.cell)) tests 0)
    (by omega)

/-- `hidden_score` lies in the unit interval. -/
theorem hidden_score_unit (s o : Sheet) :
    0 ≤ autograder.hidden_score s o ∧ autograder.hidden_score s o ≤ 1 := by
  unfold autograder.hidden_score
  have h := hiddenCount_le autograder.HIDDEN_TEST_CELLS s o
  constructor
  · positivity
  · rw [div_le_one (by norm_num [autograder.HIDDEN_TEST_CELLS])]
    exact_mod_cast h

/-- The platform grader's body, evaluated on the fixed three-element hidden
test list, always succeeds with the weighted score. -/
theorem autograder_gradeBody_eq (s o : Sheet) :
    autograder.gradeBodyWith autograder.HIDDEN_TEST_CELLS s o =
      Except.ok
        ⟨autograder.yn_score s o * 0.8 + autograder.hidden_score s o * 0.2,
         autograder.feedbackString
           (autograder.yn_score s o * 0.8 + autograder.hidden_score s o * 0.2)
           (autograder.ynCounts s o).1 (autograder.ynCounts s o).2⟩ := by
  unfold autograder.gradeBodyWith pyDiv autograder.hidden_score
  have hne := eq_false (show ¬((autograder.HIDDEN_TEST_CELLS.length : ℚ) = 0) from by
    norm_num [autograder.HIDDEN_TEST_CELLS])
  simp only [hne, if_false]

/-- The local grader's body likewise. -/
theorem grader_gradeBody_eq (s o : Sheet) :
    grader.gradeBodyWith grader.HIDDEN_TEST_CELLS s o =
      Except.ok
        ⟨grader.yn_score s o * 0.8 + grader.hidden_score s o * 0.2,
         grader.feedbackString
           (grader.yn_score s o * 0.8 + grader.hidden_score s o * 0.2)
           (grader.ynCounts s o).1 (grader.ynCounts s o).2,
         some ⟨(grader.ynCounts s o).1, (grader.ynCounts s o).2,
           grader.hiddenCountWith grader.HIDDEN_TEST_CELLS s o,
           grader.HIDDEN_TEST_CELLS.length⟩⟩ := by
  unfold grader.gradeBodyWith pyDiv grader.hidden_score
  have hne := eq_false (show ¬((grader.HIDDEN_TEST_CELLS.length : ℚ) = 0) from by
    norm_num [grader.HIDDEN_TEST_CELLS])
  simp only [hne, if_false]

/-- The two modules' tolerant comparisons are the same function. -/
theorem grader_equal_values_eq (a b : XLValue) :
    grader.equal_values a b = autograder.equal_values a b := rfl

/-- The two modules' row-1 counts are the same function. -/
theorem grader_ynCounts_eq (s o : Sheet) :
    grader.ynCounts s o = autograder.ynCounts s o := rfl

/-- The two modules' `yn_score` agree. -/
theorem grader_yn_score_eq (s o : Sheet) :
    grader.yn_score s o = autograder.yn_score s o := rfl

/-- The two modules' `hidden_score` agree. -/
theorem grader_hidden_score_eq (s o : Sheet) :
    grader.hidden_score s o = autograder.hidden_score s o := rfl

/-- The platform grader on two loaded workbooks that lack no sheet: the
full result. -/
theorem autograder_success_result (wb1 wb2 : Workbook)
    (h1 : "blank" ∈ wb1.sheetnames) (h2 : "solution" ∈ wb2.sheetnames) :
    autograder.grade_excel_worksheet (.ok wb1) (.ok wb2) =
      ⟨autograder.yn_score (wb1.get "blank") (wb2.get "solution") * 0.8 +
         autograder.hidden_score (wb1.get "blank") (wb2.get "solution") * 0.2,
       autograder.feedbackString
         (autograder.yn_score (wb1.get "blank") (wb2.get "solution") * 0.8 +
           autograder.hidden_score (wb1.get "blank") (wb2.get "solution") * 0.2)
         (autograder.ynCounts (wb1.get "blank") (wb2.get "solution")).1
         (autograder.ynCounts (wb1.get "blank") (wb2.get "solution")).2⟩ := by
  show autograder.gradeWith _ _ _ = _
  unfold autograder.gradeWith
  simp only [autograder.STUDENT_SHEET_NAME, autograder.SOLUTION_SHEET_NAME,
    if_pos h1, if_pos h2]
  rw [autograder_gradeBody_eq]

/-- The local grader on two loaded workbooks that lack no sheet: the full
result, including the diagnostic fields. -/
theorem grader_success_result (wb1 wb2 : Workbook)
    (h1 : "blank" ∈ wb1.sheetnames) (h2 : "solution" ∈ wb2.sheetnames) :
    grader.grade_excel_worksheet (.ok wb1) (.ok wb2) =
      ⟨grader.yn_score (wb1.get "blank") (wb2.get "solution") * 0.8 +
         grader.hidden_score (wb1.get "blank") (wb2.get "solution") * 0.2,
       grader.feedbackString
         (grader.yn_score (wb1.get "blank") (wb2.get "solution") * 0.8 +
           grader.hidden_score (wb1.get "blank") (wb2.get "solution") * 0.2)
         (grader.ynCounts (wb1.get "blank") (wb2.get "solution")).1
         (grader.ynCounts (wb1.get "blank") (wb2.get "solution")).2,
       some ⟨(grader.ynCounts (wb1.get "blank") (wb2.get "solution")).1,
         (grader.ynCounts (wb1.get "blank") (wb2.get "solution")).2,
         grader.hiddenCountWith grader.HIDDEN_TEST_CELLS
           (wb1.get "blank") (wb2.get "solution"),
         grader.HIDDEN_TEST_CELLS.length⟩⟩ := by
  show grader.gradeWith _ _ _ = _
  unfold grader.gradeWith
  simp only [grader.STUDENT_SHEET_NAME, grader.SOLUTION_SHEET_NAME,
    if_pos h1, if_pos h2]
  rw [grader_gradeBody_eq]

/-- The platform grader when the student workbook lacks "blank". -/
theorem autograder_missing_student (wb1 wb2 : Workbook)
    (h1 : "blank" ∉ wb1.sheetnames) :
    autograder.grade_excel_worksheet (.ok wb1) (.ok wb2) =
      ⟨0, "Error: Worksheet \x27blank\x27 not found in your submission."⟩ := by
  show autograder.gradeWith _ _ _ = _
  unfold autograder.gradeWith
  simp only [autograder.STUDENT_SHEET_NAME, if_neg h1]

/-- The local grader when the student workbook lacks "blank". -/
theorem grader_missing_student (wb1 wb2 : Workbook)
    (h1 : "blank" ∉ wb1.sheetnames) :
    grader.grade_excel_worksheet (.ok wb1) (.ok wb2) =
      ⟨0, "Error: Worksheet \x27blank\x27 not found in your submission.",
        Option.none⟩ := by
  show grader.gradeWith _ _ _ = _
  unfold grader.gradeWith
  simp only [grader.STUDENT_SHEET_NAME, if_neg h1]

/-- The platform grader when the solution workbook lacks "solution". -/
theorem autograder_missing_solution (wb1 wb2 : Workbook)
    (h1 : "blank" ∈ wb1.sheetnames) (h2 : "solution" ∉ wb2.sheetnames) :
    autograder.grade_excel_worksheet (.ok wb1) (.ok wb2) =
      ⟨0, "Error: Internal error - Solution worksheet not found."⟩ := by
  show autograder.gradeWith _ _ _ = _
  unfold autograder.gradeWith
  simp only [autograder.STUDENT_SHEET_NAME, autograder.SOLUTION_SHEET_NAME,
    if_pos h1, if_neg h2]

/-- The local grader when the solution workbook lacks "solution". -/
theorem grader_missing_solution (wb1 wb2 : Workbook)
    (h1 : "blank" ∈ wb1.sheetnames) (h2 : "solution" ∉ wb2.sheetnames) :
    grader.grade_excel_worksheet (.ok wb1) (.ok wb2) =
      ⟨0, "Error: Solution worksheet not found.", Option.none⟩ := by
  show grader.gradeWith _ _ _ = _
  unfold grader.gradeWith
  simp only [grader.STUDENT_SHEET_NAME, grader.SOLUTION_SHEET_NAME,
    if_pos h1, if_neg h2]

/-- The two entry points compute the same score on every input. -/
theorem score_align (s1 s2 : Source) :
    (grader.grade_excel_worksheet s1 s2).score =
      (autograder.grade_excel_worksheet s1 s2).score := by
  cases s1 with
  | err e => rfl
  | ok wb1 =>
    cases s2 with
    | err e => rfl
    | ok wb2 =>
      by_cases h1 : "blank" ∈ wb1.sheetnames
      · by_cases h2 : "solution" ∈ wb2.sheetnames
        · rw [grader_success_result wb1 wb2 h1 h2,
            autograder_success_result wb1 wb2 h1 h2]
          rw [grader_yn_score_eq, grader_hidden_score_eq]
        · rw [grader_missing_solution wb1 wb2 h1 h2,
            autograder_missing_solution wb1 wb2 h1 h2]
      · rw [grader_missing_student wb1 wb2 h1,
          autograder_missing_student wb1 wb2 h1]

/-- Outside the missing-solution-sheet case the two entry points word their
feedback identically. -/
theorem feedback_align (s1 s2 : Source)
    (h : missingSolutionCase s1 s2 = false) :
    (grader.grade_excel_worksheet s1 s2).feedback =
      (autograder.grade_excel_worksheet s1 s2).feedback := by
  cases s1 with
  | err e => rfl
  | ok wb1 =>
    cases s2 with
    | err e => rfl
    | ok wb2 =>
      simp only [missingSolutionCase, Bool.and_eq_false_iff,
        decide_eq_false_iff_not, Bool.not_eq_false', decide_eq_true_eq] at h
      by_cases h1 : "blank" ∈ wb1.sheetnames
      · by_cases h2 : "solution" ∈ wb2.sheetnames
        · rw [grader_success_result wb1 wb2 h1 h2,
            autograder_success_result wb1 wb2 h1 h2]
          rw [grader_yn_score_eq, grader_hidden_score_eq, grader_ynCounts_eq]
          rfl
        · exfalso
          rcases h with h | h
          · exact h h1
          · exact h2 h
      · rw [grader_missing_student wb1 wb2 h1,
          autograder_missing_student wb1 wb2 h1]

/-- In the missing-solution-sheet case the two entry points emit their two
distinct diagnostic strings. -/
theorem missing_solution_feedbacks (s1 s2 : Source)
    (h : missingSolutionCase s1 s2 = true) :
    (grader.grade_excel_worksheet s1 s2).feedback =
      "Error: Solution worksheet not found."
  ∧ (autograder.grade_excel_worksheet s1 s2).feedback =
      "Error: Internal error - Solution worksheet not found." := by
  cases s1 with
  | err e => simp [missingSolutionCase] at h
  | ok wb1 =>
    cases s2 with
    | err e => simp [missingSolutionCase] at h
    | ok wb2 =>
      simp only [missingSolutionCase, Bool.and_eq_true, decide_eq_true_eq,
        Bool.not_eq_true', decide_eq_false_iff_not] at h
      rw [grader_missing_solution wb1 wb2 h.1 h.2,
        autograder_missing_solution wb1 wb2 h.1 h.2]
      exact ⟨rfl, rfl⟩

/-- The platform grader's score is always in the unit interval. -/
theorem autograder_score_unit (s1 s2 : Source) :
    0 ≤ (autograder.grade_excel_worksheet s1 s2).score ∧
      (autograder.grade_excel_worksheet s1 s2).score ≤ 1 := by
  cases s1 with
  | err e => exact ⟨le_refl 0, show (0:ℚ) ≤ 1 by norm_num⟩
  | ok wb1 =>
    cases s2 with
    | err e => exact ⟨le_refl 0, show (0:ℚ) ≤ 1 by norm_num⟩
    | ok wb2 =>
      by_cases h1 : "blank" ∈ wb1.sheetnames
      · by_cases h2 : "solution" ∈ wb2.sheetnames
        · rw [autograder_success_result wb1 wb2 h1 h2]
          have hy := yn_score_unit (wb1.get "blank") (wb2.get "solution")
          have hh := hidden_score_unit (wb1.get "blank") (wb2.get "solution")
          constructor
          · show 0 ≤ autograder.yn_score (wb1.get "blank") (wb2.get "solution") * 0.8 +
              autograder.hidden_score (wb1.get "blank") (wb2.get "solution") * 0.2
            linarith [hy.1, hh.1]
          · show autograder.yn_score (wb1.get "blank") (wb2.get "solution") * 0.8 +
              autograder.hidden_score (wb1.get "blank") (wb2.get "solution") * 0.2 ≤ 1
            linarith [hy.2, hh.2]
        · rw [autograder_missing_solution wb1 wb2 h1 h2]
          exact ⟨le_refl 0, show (0:ℚ) ≤ 1 by norm_num⟩
      · rw [autograder_missing_student wb1 wb2 h1]
        exact ⟨le_refl 0, show (0:ℚ) ≤ 1 by norm_num⟩

/-- C1: for every pair of loaded sheets (both workbooks load and contain
their required sheets), the score returned by `grade_excel_worksheet`
equals `yn_score * 0.8 + hidden_score * 0.2`, in both entry points; the
80/20 weighting is fixed for all inputs. -/
theorem C1_fixed_weighting (wb1 wb2 : Workbook)
    (h1 : "blank" ∈ wb1.sheetnames) (h2 : "solution" ∈ wb2.sheetnames) :
    (autograder.grade_excel_worksheet (.ok wb1) (.ok wb2)).score =
        autograder.yn_score (wb1.get "blank") (wb2.get "solution") * 0.8 +
        autograder.hidden_score (wb1.get "blank") (wb2.get "solution") * 0.2
  ∧ (grader.grade_excel_worksheet (.ok wb1) (.ok wb2)).score =
        grader.yn_score (wb1.get "blank") (wb2.get "solution") * 0.8 +
        grader.hidden_score (wb1.get "blank") (wb2.get "solution") * 0.2 := by
  rw [autograder_success_result wb1 wb2 h1 h2, grader_success_result wb1 wb2 h1 h2]
  exact ⟨rfl, rfl⟩

/-- Witness for C1 at a concrete pair of one-sheet workbooks. -/
theorem C1_fixed_weighting_witness :
    ("blank" ∈ wbStudentY.sheetnames ∧ "solution" ∈ wbSolutionY.sheetnames) ∧
    ((autograder.grade_excel_worksheet (.ok wbStudentY) (.ok wbSolutionY)).score =
        autograder.yn_score (wbStudentY.get "blank") (wbSolutionY.get "solution") * 0.8 +
        autograder.hidden_score (wbStudentY.get "blank") (wbSolutionY.get "solution") * 0.2
      ∧ (grader.grade_excel_worksheet (.ok wbStudentY) (.ok wbSolutionY)).score =
        grader.yn_score (wbStudentY.get "blank") (wbSolutionY.get "solution") * 0.8 +
        grader.hidden_score (wbStudentY.get "blank") (wbSolutionY.get "solution") * 0.2) :=
  ⟨⟨by decide, by decide⟩,
   C1_fixed_weighting wbStudentY wbSolutionY (by decide) (by decide)⟩

/-- C2 (amended): the indicator-row pass iterates column indices 5 through
`max(student.max_column, solution.max_column)` inclusive on row 1; a column
counts toward `total_cells` exactly when both row-1 values are non-absent,
and toward `matches` exactly when both are non-absent and equal under
Python's built-in `==` (which equates numeric values across int/float/bool,
but applies no tolerance and no case-folding); `yn_score` is
`matches / total_cells` when `total_cells > 0` and `0.0` otherwise.  Both
entry points share this behaviour. -/
theorem C2_indicator_row_scan (s o : Sheet) :
    ((autograder.ynCounts s o).2 =
        (List.range' 5 (max s.max_column o.max_column + 1 - 5)).countP
          (bothPresent s o)
      ∧ (autograder.ynCounts s o).1 =
        (List.range' 5 (max s.max_column o.max_column + 1 - 5)).countP
          (presentAndMatching s o)
      ∧ autograder.yn_score s o =
          (if 0 < (autograder.ynCounts s o).2 then
            ((autograder.ynCounts s o).1 : ℚ) / ((autograder.ynCounts s o).2 : ℚ)
          else 0))
  ∧ (grader.ynCounts s o = autograder.ynCounts s o
      ∧ grader.yn_score s o = autograder.yn_score s o) := by
  refine ⟨⟨?_, ?_, rfl⟩, rfl, rfl⟩
  · rw [Nat.max_comm s.max_column o.max_column, ynCounts_eq_countP]
  · rw [Nat.max_comm s.max_column o.max_column, ynCounts_eq_countP]

/-- Counterexample to C2 as stated: with the student's row-1 column-5 cell
holding the int 1 and the solution's the float 1.0, the two raw values
differ in type, yet the loop counts a match (Python `1 == 1.0` is true), so
"matches increments only when the values are equal with same type and
value" is false of the code. -/
theorem C2_counterexample :
    autograder.ynCounts sheetInt1 sheetFloat1 = (1, 1)
  ∧ exact_type_value_eq (sheetInt1.cells 1 5) (sheetFloat1.cells 1 5) = false
  ∧ sheetInt1.cells 1 5 ≠ XLValue.none
  ∧ sheetFloat1.cells 1 5 ≠ XLValue.none := by decide

/-- C3: a failure while loading either workbook is caught and converted
into a result with score 0.0 whose feedback interpolates the underlying
error message, in both entry points (the rest of the grading body is total
in this model, so no other failure can escape). -/
theorem C3_load_errors_caught (e : String) (s2 : Source) (wb : Workbook) :
    autograder.grade_excel_worksheet (.err e) s2 =
        ⟨0, "Error grading your submission: " ++ e⟩
  ∧ autograder.grade_excel_worksheet (.ok wb) (.err e) =
        ⟨0, "Error grading your submission: " ++ e⟩
  ∧ grader.grade_excel_worksheet (.err e) s2 =
        ⟨0, "Error grading your submission: " ++ e, Option.none⟩
  ∧ grader.grade_excel_worksheet (.ok wb) (.err e) =
        ⟨0, "Error grading your submission: " ++ e, Option.none⟩ :=
  ⟨rfl, rfl, rfl, rfl⟩

/-- C4: a missing required sheet short-circuits to score 0.0 with the
specific "not found" message naming the missing sheet, before any cell
comparison: the result is a constant independent of every cell value (and
the local grader's diagnostic counters are absent). -/
theorem C4_missing_sheet_short_circuit (wb1 wb2 : Workbook) :
    ("blank" ∉ wb1.sheetnames →
      autograder.grade_excel_worksheet (.ok wb1) (.ok wb2) =
          ⟨0, "Error: Worksheet \x27blank\x27 not found in your submission."⟩
        ∧ grader.grade_excel_worksheet (.ok wb1) (.ok wb2) =
          ⟨0, "Error: Worksheet \x27blank\x27 not found in your submission.",
            Option.none⟩)
  ∧ ("blank" ∈ wb1.sheetnames → "solution" ∉ wb2.sheetnames →
      autograder.grade_excel_worksheet (.ok wb1) (.ok wb2) =
          ⟨0, "Error: Internal error - Solution worksheet not found."⟩
        ∧ grader.grade_excel_worksheet (.ok wb1) (.ok wb2) =
          ⟨0, "Error: Solution worksheet not found.", Option.none⟩) :=
  ⟨fun h1 => ⟨autograder_missing_student wb1 wb2 h1,
     grader_missing_student wb1 wb2 h1⟩,
   fun h1 h2 => ⟨autograder_missing_solution wb1 wb2 h1 h2,
     grader_missing_solution wb1 wb2 h1 h2⟩⟩

/-- Witness for C4: a workbook with no sheets on either side. -/
theorem C4_missing_sheet_short_circuit_witness :
    (autograder.grade_excel_worksheet (.ok wbEmpty) (.ok wbSolutionY) =
          ⟨0, "Error: Worksheet \x27blank\x27 not found in your submission."⟩
        ∧ grader.grade_excel_worksheet (.ok wbEmpty) (.ok wbSolutionY) =
          ⟨0, "Error: Worksheet \x27blank\x27 not found in your submission.",
            Option.none⟩)
  ∧ (autograder.grade_excel_worksheet (.ok wbStudentY) (.ok wbEmpty) =
          ⟨0, "Error: Internal error - Solution worksheet not found."⟩
        ∧ grader.grade_excel_worksheet (.ok wbStudentY) (.ok wbEmpty) =
          ⟨0, "Error: Solution worksheet not found.", Option.none⟩) :=
  ⟨(C4_missing_sheet_short_circuit wbEmpty wbSolutionY).1 (by decide),
   (C4_missing_sheet_short_circuit wbStudentY wbEmpty).2 (by decide) (by decide)⟩

/-- C5: for values that are Python ints or floats proper, `equal_values`
returns true exactly when `abs(a - b) < 0.0001`; in particular
`equal_values(1.00005, 1.0)` is true and `equal_values(1.01, 1.0)` is
false.  Both modules' `equal_values` coincide. -/
theorem C5_numeric_tolerance (a b : XLValue)
    (ha : isIntOrFloat a = true) (hb : isIntOrFloat b = true) :
    (autograder.equal_values a b = true ↔ |toNum a - toNum b| < 0.0001)
  ∧ grader.equal_values a b = autograder.equal_values a b
  ∧ autograder.equal_values (XLValue.float 1.00005) (XLValue.float 1.0) = true
  ∧ autograder.equal_values (XLValue.float 1.01) (XLValue.float 1.0) = false := by
  refine ⟨?_, rfl, ?_, ?_⟩
  · cases a <;> cases b <;>
      simp_all [autograder.equal_values, isIntOrFloat, isBlank,
        isinstance_number, pyEq, toNum]
  · simp [autograder.equal_values, isBlank, isinstance_number, pyEq, toNum]
    rw [abs_of_nonneg (by norm_num)]
    norm_num
  · simp [autograder.equal_values, isBlank, isinstance_number, pyEq, toNum]
    rw [abs_of_nonneg (by norm_num)]
    norm_num

/-- Witness for C5 at the int pair (3, 3). -/
theorem C5_numeric_tolerance_witness :
    (isIntOrFloat (XLValue.int 3) = true ∧ isIntOrFloat (XLValue.int 3) = true)
  ∧ ((autograder.equal_values (XLValue.int 3) (XLValue.int 3) = true ↔
        |toNum (XLValue.int 3) - toNum (XLValue.int 3)| < 0.0001)
      ∧ grader.equal_values (XLValue.int 3) (XLValue.int 3) =
          autograder.equal_values (XLValue.int 3) (XLValue.int 3)
      ∧ autograder.equal_values (XLValue.float 1.00005) (XLValue.float 1.0) = true
      ∧ autograder.equal_values (XLValue.float 1.01) (XLValue.float 1.0) = false) :=
  ⟨⟨by decide, by decide⟩,
   C5_numeric_tolerance (XLValue.int 3) (XLValue.int 3) (by decide) (by decide)⟩

/-- C6 (amended): for non-blank pairs in the claim's domain (at least one
boolean, or mixed types, or neither numeric nor text), `equal_values`
applies the numeric tolerance whenever both values are numeric in Python's
`isinstance` sense — which includes booleans, valued 1/0, since bool is a
subclass of int — and otherwise falls back to Python's built-in `==`
(value equality; a cross-type non-numeric pair is unequal), not to exact
type-and-value equality. -/
theorem C6_fallback_comparison (a b : XLValue)
    (hblank : ¬(isBlank a = true ∧ isBlank b = true))
    (hdom : isBoolVal a = true ∨ isBoolVal b = true ∨
      (¬(isinstance_number a = true ∧ isinstance_number b = true) ∧
       ¬(isStrVal a = true ∧ isStrVal b = true))) :
    (autograder.equal_values a b =
      if isinstance_number a && isinstance_number b then
        decide (|toNum a - toNum b| < 0.0001)
      else pyEq a b)
  ∧ grader.equal_values a b = autograder.equal_values a b := by
  refine ⟨?_, rfl⟩
  cases a <;> cases b <;>
    simp_all [autograder.equal_values, isBlank, isBoolVal, isStrVal,
      isinstance_number, pyEq]

/-- Witness for C6 at the boolean pair (True, False). -/
theorem C6_fallback_comparison_witness :
    ((autograder.equal_values (XLValue.bool true) (XLValue.bool false) =
        if isinstance_number (XLValue.bool true) &&
            isinstance_number (XLValue.bool false) then
          decide (|toNum (XLValue.bool true) - toNum (XLValue.bool false)| < 0.0001)
        else pyEq (XLValue.bool true) (XLValue.bool false))
      ∧ grader.equal_values (XLValue.bool true) (XLValue.bool false) =
          autograder.equal_values (XLValue.bool true) (XLValue.bool false)) :=
  C6_fallback_comparison (XLValue.bool true) (XLValue.bool false)
    (by decide) (Or.inl (by decide))

/-- Counterexample to C6 as stated: `equal_values(True, 1)` involves a
boolean and two different types, yet returns true (the numeric-tolerance
branch fires because Python's bool is an int), while exact value-and-type
equality is false for that pair. -/
theorem C6_counterexample :
    autograder.equal_values (XLValue.bool true) (XLValue.int 1) = true
  ∧ grader.equal_values (XLValue.bool true) (XLValue.int 1) = true
  ∧ exact_type_value_eq (XLValue.bool true) (XLValue.int 1) = false
  ∧ isBlank (XLValue.bool true) = false
  ∧ isBlank (XLValue.int 1) = false := by
  refine ⟨?_, ?_, by decide, by decide, by decide⟩ <;>
    · simp [autograder.equal_values, grader.equal_values, isBlank,
        isinstance_number, pyEq, toNum]
      norm_num

/-- C7: on every input — loaded or failing workbooks alike — the score
field returned by either entry point lies in the closed interval
[0.0, 1.0]. -/
theorem C7_score_in_unit_interval (s1 s2 : Source) :
    (0 ≤ (autograder.grade_excel_worksheet s1 s2).score
      ∧ (autograder.grade_excel_worksheet s1 s2).score ≤ 1)
  ∧ (0 ≤ (grader.grade_excel_worksheet s1 s2).score
      ∧ (grader.grade_excel_worksheet s1 s2).score ≤ 1) := by
  refine ⟨autograder_score_unit s1 s2, ?_⟩
  rw [score_align s1 s2]
  exact autograder_score_unit s1 s2

/-- C8 (amended): if the hidden-test list were empty the grading call does
not raise — but the `ZeroDivisionError` from the unguarded division is
caught by the top-level handler, so the whole call returns score 0.0 with
the interpolated "division by zero" feedback, rather than a defined
`hidden_score = 0.0`; for the actual fixed list, `hidden_score` is always
the pass count divided by the list length 3, regardless of how many cells
are attempted. -/
theorem C8_hidden_denominator (wb1 wb2 : Workbook)
    (h1 : "blank" ∈ wb1.sheetnames) (h2 : "solution" ∈ wb2.sheetnames) :
    autograder.gradeWith [] (.ok wb1) (.ok wb2) =
        ⟨0, "Error grading your submission: division by zero"⟩
  ∧ grader.gradeWith [] (.ok wb1) (.ok wb2) =
        ⟨0, "Error grading your submission: division by zero", Option.none⟩
  ∧ autograder.hidden_score (wb1.get "blank") (wb2.get "solution") =
      (autograder.hiddenCountWith autograder.HIDDEN_TEST_CELLS
          (wb1.get "blank") (wb2.get "solution") : ℚ) /
        (autograder.HIDDEN_TEST_CELLS.length : ℚ)
  ∧ autograder.HIDDEN_TEST_CELLS.length = 3
  ∧ grader.HIDDEN_TEST_CELLS.length = 3 := by
  refine ⟨?_, ?_, rfl, rfl, rfl⟩
  · show autograder.gradeWith _ _ _ = _
    unfold autograder.gradeWith
    simp only [autograder.STUDENT_SHEET_NAME, autograder.SOLUTION_SHEET_NAME,
      if_pos h1, if_pos h2]
    simp [autograder.gradeBodyWith, pyDiv]
  · show grader.gradeWith _ _ _ = _
    unfold grader.gradeWith
    simp only [grader.STUDENT_SHEET_NAME, grader.SOLUTION_SHEET_NAME,
      if_pos h1, if_pos h2]
    simp [grader.gradeBodyWith, pyDiv]

/-- Witness for C8 at a concrete pair of one-sheet workbooks. -/
theorem C8_hidden_denominator_witness :
    ("blank" ∈ wbStudentY.sheetnames ∧ "solution" ∈ wbSolutionY.sheetnames)
  ∧ (autograder.gradeWith [] (.ok wbStudentY) (.ok wbSolutionY) =
        ⟨0, "Error grading your submission: division by zero"⟩
      ∧ grader.gradeWith [] (.ok wbStudentY) (.ok wbSolutionY) =
        ⟨0, "Error grading your submission: division by zero", Option.none⟩
      ∧ autograder.hidden_score (wbStudentY.get "blank") (wbSolutionY.get "solution") =
          (autograder.hiddenCountWith autograder.HIDDEN_TEST_CELLS
              (wbStudentY.get "blank") (wbSolutionY.get "solution") : ℚ) /
            (autograder.HIDDEN_TEST_CELLS.length : ℚ)
      ∧ autograder.HIDDEN_TEST_CELLS.length = 3
      ∧ grader.HIDDEN_TEST_CELLS.length = 3) :=
  ⟨⟨by decide, by decide⟩,
   C8_hidden_denominator wbStudentY wbSolutionY (by decide) (by decide)⟩

/-- Counterexample to C8 as stated: with the empty list on sheets whose
indicator rows fully match (`yn_score = 1`), the claim's reading —
`hidden_score` defined as 0.0, hence score `1 * 0.8 + 0 * 0.2 = 0.8` —
contradicts the code, which returns score 0.0 with a division-by-zero
error feedback. -/
theorem C8_counterexample :
    (autograder.gradeWith [] (.ok wbStudentY) (.ok wbSolutionY)).score = 0
  ∧ (autograder.gradeWith [] (.ok wbStudentY) (.ok wbSolutionY)).feedback =
      "Error grading your submission: division by zero"
  ∧ autograder.yn_score (wbStudentY.get "blank") (wbSolutionY.get "solution") = 1
  ∧ (1 : ℚ) * 0.8 + 0 * 0.2 ≠ 0 := by
  have h : autograder.ynCounts (wbStudentY.get "blank")
      (wbSolutionY.get "solution") = (1, 1) := by decide
  refine ⟨by decide, by decide, ?_, by norm_num⟩
  simp [autograder.yn_score, h]

/-- C9 (amended): the two entry points' grading functions compute the same
score on every pair of workbook sources, and the same feedback string in
every case except the missing-solution-sheet case, where the platform
version prefixes "Internal error - " to the message; beyond that the local
version differs only by carrying the extra diagnostic fields. -/
theorem C9_wrapper_equivalence (s1 s2 : Source) :
    (grader.grade_excel_worksheet s1 s2).score =
        (autograder.grade_excel_worksheet s1 s2).score
  ∧ (missingSolutionCase s1 s2 = false →
      (grader.grade_excel_worksheet s1 s2).feedback =
        (autograder.grade_excel_worksheet s1 s2).feedback)
  ∧ (missingSolutionCase s1 s2 = true →
      (grader.grade_excel_worksheet s1 s2).feedback =
          "Error: Solution worksheet not found."
        ∧ (autograder.grade_excel_worksheet s1 s2).feedback =
          "Error: Internal error - Solution worksheet not found.") :=
  ⟨score_align s1 s2, feedback_align s1 s2, missing_solution_feedbacks s1 s2⟩

/-- Witness for C9: the score agreement, the feedback agreement on a fully
successful pair, and the two distinct messages in the missing-solution
case. -/
theorem C9_wrapper_equivalence_witness :
    (grader.grade_excel_worksheet (.ok wbStudentY) (.ok wbSolutionY)).score =
        (autograder.grade_excel_worksheet (.ok wbStudentY) (.ok wbSolutionY)).score
  ∧ (grader.grade_excel_worksheet (.ok wbStudentY) (.ok wbSolutionY)).feedback =
        (autograder.grade_excel_worksheet (.ok wbStudentY) (.ok wbSolutionY)).feedback
  ∧ ((grader.grade_excel_worksheet (.ok wbStudentY) (.ok wbEmpty)).feedback =
        "Error: Solution worksheet not found."
      ∧ (autograder.grade_excel_worksheet (.ok wbStudentY) (.ok wbEmpty)).feedback =
        "Error: Internal error - Solution worksheet not found.") :=
  ⟨(C9_wrapper_equivalence (.ok wbStudentY) (.ok wbSolutionY)).1,
   (C9_wrapper_equivalence (.ok wbStudentY) (.ok wbSolutionY)).2.1 (by decide),
   (C9_wrapper_equivalence (.ok wbStudentY) (.ok wbEmpty)).2.2 (by decide)⟩

/-- Counterexample to C9 as stated: when the solution workbook lacks its
sheet, the two entry points return different feedback strings. -/
theorem C9_counterexample :
    (grader.grade_excel_worksheet (.ok wbStudentY) (.ok wbEmpty)).feedback ≠
      (autograder.grade_excel_worksheet (.ok wbStudentY) (.ok wbEmpty)).feedback := by
  decide

/-- C10: the tolerant equality is not transitive around the blank category:
a whitespace-only string equals the empty string (trimmed text branch), and
the empty string equals the absent value None (blank branch), yet the
whitespace-only string does not equal None.  Both modules agree. -/
theorem C10_blank_not_transitive :
    (autograder.equal_values (XLValue.str " ") (XLValue.str "") = true
      ∧ autograder.equal_values (XLValue.str "") XLValue.none = true
      ∧ autograder.equal_values (XLValue.str " ") XLValue.none = false)
  ∧ (grader.equal_values (XLValue.str " ") (XLValue.str "") = true
      ∧ grader.equal_values (XLValue.str "") XLValue.none = true
      ∧ grader.equal_values (XLValue.str " ") XLValue.none = false) := by
  decide
